import Mathlib

/-!
Verification of the stockhub-backend relay server (server.js, token_store.js).

The development shallowly embeds the parts of the program that the spec
talks about:

* a JSON value model together with the JavaScript behaviours the code
  relies on (property access, truthiness, Array.isArray), used by the
  downstream message handler and the upstream relay;
* the downstream frontend-client message handler of server.js
  (wss connection message handler plus forwardSubscriptionToUpstox),
  as a pure function from the parse outcome of the inbound message to
  the list of messages it emits;
* the upstream connection manager (connectUpstoxWS and its close
  handler) as a state machine over the states of every socket created
  so far and the set of pending reconnect timers, driven by an event
  list;
* the token refresh path (refreshAccessToken and the auth callback) as
  pure functions from the fetch outcome to the new token state, the
  list of side effects (fetch, save, connect) in program order, and the
  error outcome of the run;
* the concurrency structure of refresh triggers (the 45 second interval
  of init), as a state machine counting auth exchanges in flight, using
  the fact that refreshAccessToken runs synchronously from its entry to
  its first await;
* the sqlite token store (saveTokens and loadTokens of token_store.js)
  with the table modelled as the list of its rows.

Outbound HTTP calls, socket sends and store operations are the await
suspension points of the single threaded event loop; they appear here
as explicit effect values or as event parameters carrying the outcome
of the call.
-/

namespace StockHub

/-- JSON values as produced by a successful JSON.parse call.  JSON.parse
never yields undefined, so there is no undefined constructor; the
undefined result of a missing property read is Option.none at use
sites. -/
inductive Json where
  | null : Json
  | bool (b : Bool) : Json
  | num (n : Int) : Json
  | str (s : String) : Json
  | arr (xs : List Json) : Json
  | obj (fields : List (String × Json)) : Json

/-- First binding of a key in an object literal, as JavaScript property
lookup sees it. -/
def lookupField : List (String × Json) → String → Option Json
  | [], _ => none
  | (k, v) :: rest, key => if k = key then some v else lookupField rest key

/-- JavaScript property access v[key] on a JSON.parse result: throws a
TypeError on null (Except.error), yields the bound value on an object
that has the key, and yields undefined (Option.none) everywhere
else. -/
def jsGet : Json → String → Except Unit (Option Json)
  | Json.null, _ => Except.error ()
  | Json.obj fields, key => Except.ok (lookupField fields key)
  | _, _ => Except.ok none

/-- JavaScript truthiness of a JSON value. -/
def truthy : Json → Bool
  | Json.null => false
  | Json.bool b => b
  | Json.num n => n != 0
  | Json.str s => s != ""
  | Json.arr _ => true
  | Json.obj _ => true

/-- JavaScript truthiness of a possibly-undefined value (undefined is
falsy). -/
def truthyOpt : Option Json → Bool
  | some j => truthy j
  | none => false

/-- Array.isArray on a JSON value. -/
def isArray : Json → Bool
  | Json.arr _ => true
  | _ => false

/-- Array.isArray on a possibly-undefined value. -/
def isArrayOpt : Option Json → Bool
  | some j => isArray j
  | none => false

/-- Strict equality of a possibly-undefined JSON value with a string
literal, as in the action checks of the message handler. -/
def jsStrEq : Option Json → String → Bool
  | some (Json.str t), s => t == s
  | _, _ => false

/-- Messages emitted while handling one inbound frontend message.
toUpstox is a send on the upstream socket (upstoxWS.send), toSender a
send back to the originating frontend client (ws.send), and
closeSender a close of that client channel; the handler never emits
closeSender, which the theorems below make explicit. -/
inductive OutMsg where
  | toUpstox (j : Json) : OutMsg
  | toSender (j : Json) : OutMsg
  | closeSender : OutMsg

/-- Success acknowledgement sent after a forwarded subscription
(server.js line 270). -/
def okAck : Json :=
  Json.obj [("ok", Json.bool true), ("info", Json.str "Subscription forwarded to Upstox")]

/-- Failure acknowledgement sent when forwarding did not happen
(server.js line 271). -/
def failAck : Json :=
  Json.obj [("ok", Json.bool false), ("error", Json.str "Upstox WS not connected yet")]

/-- Reply sent from the catch block of the message handler (server.js
line 295). -/
def invalidMsg : Json :=
  Json.obj [("error", Json.str "Invalid message format")]

/-- Reply of the ltp branch when the REST call succeeded with body j
(server.js line 283). -/
def ltpReply (symbol : Json) (j : Json) : Json :=
  Json.obj [("type", Json.str "ltp_response"), ("symbol", symbol), ("data", j)]

/-- Reply of the ltp branch when the REST call threw (server.js
line 285). -/
def ltpFailReply : Json :=
  Json.obj [("type", Json.str "ltp_response"), ("error", Json.str "failed")]

/-- forwardSubscriptionToUpstox (server.js lines 126-142).
upstreamOpen states whether upstoxWS is non-null with readyState OPEN.
Returns the boolean result of the source function together with the
sends it performed.  The send on the open socket is modelled as not
throwing, so the catch branch of the source (which also returns false
with no further effect) is not a reachable branch of the model. -/
def forwardSubscriptionToUpstox (upstreamOpen : Bool) (symbols : Json) :
    Bool × List OutMsg :=
  match symbols with
  | Json.arr xs =>
      if xs.length = 0 then (false, [])
      else if upstreamOpen then
        (true, [OutMsg.toUpstox (Json.obj [("action", Json.str "subscribe"), ("symbols", Json.arr xs)])])
      else (false, [])
  | _ => (false, [])

/-- Body of the try block of the frontend message handler (server.js
lines 266-292), after JSON.parse succeeded with value parsed.
ltpResult carries the outcome of the REST fetch performed by the ltp
branch (Except.error for a throw).  The three property reads are
hoisted to the top: on a non-null value a property read never throws,
and on null the first read (parsed.action) throws before the others
are reached in the source, which is exactly what the ordered matches
below do. -/
def handleParsed (upstreamOpen : Bool) (ltpResult : Except Unit Json) (parsed : Json) :
    Except Unit (List OutMsg) :=
  match jsGet parsed "action" with
  | Except.error e => Except.error e
  | Except.ok action =>
    match jsGet parsed "symbols" with
    | Except.error e => Except.error e
    | Except.ok symbolsOpt =>
      match jsGet parsed "symbol" with
      | Except.error e => Except.error e
      | Except.ok symbolOpt =>
        if jsStrEq action "subscribe" && isArrayOpt symbolsOpt then
          let res := forwardSubscriptionToUpstox upstreamOpen (symbolsOpt.getD Json.null)
          if res.fst then Except.ok (res.snd ++ [OutMsg.toSender okAck])
          else Except.ok (res.snd ++ [OutMsg.toSender failAck])
        else if jsStrEq action "ltp" && truthyOpt symbolOpt then
          match ltpResult with
          | Except.ok j => Except.ok [OutMsg.toSender (ltpReply (symbolOpt.getD Json.null) j)]
          | Except.error _ => Except.ok [OutMsg.toSender ltpFailReply]
        else
          Except.ok [OutMsg.toSender (Json.obj [("echo", parsed)])]

/-- The complete frontend message handler (server.js lines 264-297).
parseResult is the outcome of JSON.parse on the inbound text
(Option.none for a parse throw).  The catch block turns both a parse
throw and a runtime throw inside the try block into the single
invalid-format reply. -/
def handleFrontendMessage (upstreamOpen : Bool) (ltpResult : Except Unit Json)
    (parseResult : Option Json) : List OutMsg :=
  match parseResult with
  | none => [OutMsg.toSender invalidMsg]
  | some parsed =>
    match handleParsed upstreamOpen ltpResult parsed with
    | Except.ok msgs => msgs
    | Except.error _ => [OutMsg.toSender invalidMsg]

/-- Test that the subscribe branch forwards and acknowledges. -/
example :
    handleFrontendMessage true (Except.error ())
      (some (Json.obj [("action", Json.str "subscribe"), ("symbols", Json.arr [Json.str "X"])])) =
    [OutMsg.toUpstox (Json.obj [("action", Json.str "subscribe"), ("symbols", Json.arr [Json.str "X"])]),
     OutMsg.toSender okAck] := rfl

/-- Test the disconnected subscribe branch. -/
example :
    handleFrontendMessage false (Except.error ())
      (some (Json.obj [("action", Json.str "subscribe"), ("symbols", Json.arr [Json.str "X"])])) =
    [OutMsg.toSender failAck] := rfl

/-- Test that a null message hits the catch block. -/
example :
    handleFrontendMessage true (Except.error ()) (some Json.null) =
    [OutMsg.toSender invalidMsg] := rfl

/-! ## Upstream message relay (server.js lines 96-108) -/

/-- readyState values of a ws socket. -/
inductive WSReady where
  | CONNECTING : WSReady
  | OPEN : WSReady
  | CLOSING : WSReady
  | CLOSED : WSReady
deriving DecidableEq, BEq

/-- Payload built by the upstream message handler: the message text is
parsed if possible (parseResult some) and the raw string is used
otherwise, then wrapped with the source tag the code writes. -/
def upstoxWrap (parseResult : Option Json) (raw : String) : Json :=
  Json.obj [("source", Json.str "upstox"),
            ("data", match parseResult with
                     | some parsed => parsed
                     | none => Json.str raw)]

/-- The upstream message handler (server.js lines 96-108): the wrapped
payload is sent to every frontend client whose readyState is OPEN.
clients lists the readyState of each registered frontend client in
iteration order; the result lists, for each of them, the payload it
was sent (none when it was skipped). -/
def relayUpstoxMessage (parseResult : Option Json) (raw : String)
    (clients : List WSReady) : List (Option Json) :=
  clients.map (fun st => if st = WSReady.OPEN then some (upstoxWrap parseResult raw) else none)

/-! ## Upstream connection manager (server.js lines 69-123)

The state tracks every upstream socket the process has created, the
index the upstoxWS variable currently points at, the multiset of
reconnect timers pending in the runtime (with their delay in
milliseconds), the handle stored in the reconnectTimer variable, and
the next fresh timer id.  The reconnectTimer variable and the set of
pending timers are distinct on purpose: assigning a new setTimeout
handle over an uncleared one leaves the old timer pending in the
runtime even though the variable no longer references it. -/

structure ConnState where
  upstoxAccessToken : String
  sockets : List WSReady
  upstoxWS : Option Nat
  pendingTimers : List (Nat × Nat)
  reconnectTimer : Option Nat
  nextTimer : Nat
deriving DecidableEq

/-- readyState of the socket the upstoxWS variable points at, none when
upstoxWS is null. -/
def currentReady (s : ConnState) : Option WSReady :=
  match s.upstoxWS with
  | none => none
  | some i => s.sockets[i]?

/-- clearTimeout(reconnectTimer); reconnectTimer = null (server.js
lines 85-88): cancels exactly the timer whose handle the variable
holds, a no-op on the runtime when that timer already fired. -/
def clearReconnectTimer (s : ConnState) : ConnState :=
  match s.reconnectTimer with
  | some t => { s with pendingTimers := s.pendingTimers.filter (fun p => p.fst != t),
                       reconnectTimer := none }
  | none => s

/-- connectUpstoxWS (server.js lines 69-90): return early when no
access token is present; return early when upstoxWS is non-null with
readyState OPEN; otherwise clear any timer referenced by the
reconnectTimer variable and create a fresh socket, which starts in
readyState CONNECTING, storing it in upstoxWS. -/
def connectUpstoxWS (s : ConnState) : ConnState :=
  if s.upstoxAccessToken = "" then s
  else if currentReady s = some WSReady.OPEN then s
  else
    let s2 := clearReconnectTimer s
    { s2 with sockets := s2.sockets ++ [WSReady.CONNECTING],
              upstoxWS := some s2.sockets.length }

/-- The close handler installed on every upstream socket (server.js
lines 110-117): schedule a reconnect after 5000 ms and store the new
handle in the reconnectTimer variable.  The handler does not clear a
previously stored timer. -/
def onUpstoxClose (s : ConnState) (i : Nat) : ConnState :=
  { s with sockets := s.sockets.set i WSReady.CLOSED,
           pendingTimers := s.pendingTimers ++ [(s.nextTimer, 5000)],
           reconnectTimer := some s.nextTimer,
           nextTimer := s.nextTimer + 1 }

/-- Events of the connection manager: a call to connectUpstoxWS (from
init, the auth callback, refreshAccessToken, or a fired reconnect
timer), the open and close events of socket i, and the firing of
pending reconnect timer t (whose callback calls connectUpstoxWS). -/
inductive ConnEvent where
  | connect : ConnEvent
  | sockOpen (i : Nat) : ConnEvent
  | sockClose (i : Nat) : ConnEvent
  | timerFire (t : Nat) : ConnEvent

/-- One event of the connection manager.  Socket events are only
enabled for a socket in a state that can emit them, and a timer can
only fire while pending; firing removes it from the runtime before its
callback runs (the stale handle may remain in the reconnectTimer
variable, as in the source). -/
def connStep (s : ConnState) : ConnEvent → Option ConnState
  | ConnEvent.connect => some (connectUpstoxWS s)
  | ConnEvent.sockOpen i =>
      if s.sockets[i]? = some WSReady.CONNECTING then
        some { s with sockets := s.sockets.set i WSReady.OPEN }
      else none
  | ConnEvent.sockClose i =>
      if s.sockets[i]? = some WSReady.CONNECTING ∨ s.sockets[i]? = some WSReady.OPEN then
        some (onUpstoxClose s i)
      else none
  | ConnEvent.timerFire t =>
      if (s.pendingTimers.filter (fun p => p.fst == t)).length = 1 then
        some (connectUpstoxWS { s with pendingTimers := s.pendingTimers.filter (fun p => p.fst != t) })
      else none

/-- Run of the connection manager over an event list; none when some
event is not enabled. -/
def connRun (s : ConnState) : List ConnEvent → Option ConnState
  | [] => some s
  | e :: es =>
    match connStep s e with
    | some s2 => connRun s2 es
    | none => none

/-- Initial state of the process once an access token tok is in memory:
no socket created yet, no timer pending. -/
def connInit (tok : String) : ConnState :=
  { upstoxAccessToken := tok, sockets := [], upstoxWS := none,
    pendingTimers := [], reconnectTimer := none, nextTimer := 0 }

/-- Number of sockets currently in readyState CONNECTING or OPEN. -/
def liveCount (s : ConnState) : Nat :=
  (s.sockets.filter (fun r => r == WSReady.CONNECTING || r == WSReady.OPEN)).length

/-- Test: two connect calls while the first socket is still connecting
create two sockets. -/
example :
    (connRun (connInit "tok") [ConnEvent.connect, ConnEvent.connect]).map ConnState.sockets =
    some [WSReady.CONNECTING, WSReady.CONNECTING] := rfl

/-- Test: two close events stack two pending reconnect timers. -/
example :
    (connRun (connInit "tok")
      [ConnEvent.connect, ConnEvent.connect, ConnEvent.sockClose 0, ConnEvent.sockClose 1]).map
      (fun s => s.pendingTimers) = some [(0, 5000), (1, 5000)] := rfl

/-! ## Token refresh (server.js lines 144-224)

The auth endpoint is an await boundary; its outcome enters the model
as a value.  Per the interface the endpoint serves JSON with string
token fields and a numeric expires_in, each possibly absent; a null or
otherwise token-free body and an absent access_token field take the
same branch in the source (the truthiness guard on data short-circuits
before any property is read on a null body), so both are modelled by
an access_token that is not a non-empty string.  A thrown fetch or
body read is the none outcome. -/

/-- Parsed body of a response of the auth endpoint. -/
structure TokenResponse where
  access_token : Option String
  refresh_token : Option String
  expires_in : Option Int

/-- The module-level token variables of server.js (lines 21-23). -/
structure TokenState where
  upstoxAccessToken : String
  upstoxRefreshToken : String
  tokenExpiresAt : Int
deriving DecidableEq

/-- JavaScript truthiness of a possibly-absent string field. -/
def strTruthy : Option String → Bool
  | some s => s != ""
  | none => false

/-- JavaScript expression v OR fb on a possibly-absent string (absent
and the empty string are falsy). -/
def jsStrOr (v : Option String) (fb : String) : String :=
  match v with
  | some s => if s != "" then s else fb
  | none => fb

/-- JavaScript expression v OR fb on a possibly-absent number (absent
and zero are falsy). -/
def jsIntOr (v : Option Int) (fb : Int) : Int :=
  match v with
  | some n => if n != 0 then n else fb
  | none => fb

/-- Effects of one run of the refresh or bootstrap path, in program
order: the POST to the auth endpoint, the awaited saveTokens call with
its arguments, and the call to connectUpstoxWS. -/
inductive RefreshEffect where
  | fetchAuthExchange : RefreshEffect
  | save (access : String) (refresh : String) (expiresIn : Option Int) : RefreshEffect
  | connect : RefreshEffect
deriving DecidableEq

/-- Error outcome of a refresh or bootstrap run; each constructor is
one logErr or early-return branch of the source. -/
inductive RefreshError where
  | noRefreshToken : RefreshError
  | networkFailure : RefreshError
  | noAccessTokenInResponse : RefreshError
  | missingCode : RefreshError
deriving DecidableEq

/-- Result of one run: the token variables after it, its effects in
program order, and its error outcome (none on success). -/
structure RefreshRun where
  state : TokenState
  effects : List RefreshEffect
  error : Option RefreshError

/-- Continuation of refreshAccessToken after the awaited fetch and
body read (server.js lines 165-180): on a body with a truthy
access_token, assign the three token variables, await saveTokens with
the new values and the raw expires_in, and call connectUpstoxWS when
upstoxWS is not an OPEN socket (wsOpen); otherwise log and leave every
variable untouched. -/
def refreshCompletion (st : TokenState) (wsOpen : Bool) (now : Int)
    (outcome : Option TokenResponse) : RefreshRun :=
  match outcome with
  | none => ⟨st, [], some RefreshError.networkFailure⟩
  | some data =>
    if strTruthy data.access_token then
      let newAccess := data.access_token.getD ""
      let newRefresh := jsStrOr data.refresh_token st.upstoxRefreshToken
      let newExpires := now + jsIntOr data.expires_in 3600
      ⟨⟨newAccess, newRefresh, newExpires⟩,
       RefreshEffect.save newAccess newRefresh data.expires_in ::
         (if wsOpen then [] else [RefreshEffect.connect]),
       none⟩
    else
      ⟨st, [], some RefreshError.noAccessTokenInResponse⟩

/-- refreshAccessToken (server.js lines 145-181): return early when
the refresh token variable is empty, otherwise perform exactly one
fetch against the auth endpoint and run the continuation on its
outcome.  There is no retry inside the call and no in-progress
guard. -/
def refreshAccessToken (st : TokenState) (wsOpen : Bool) (now : Int)
    (outcome : Option TokenResponse) : RefreshRun :=
  if st.upstoxRefreshToken = "" then ⟨st, [], some RefreshError.noRefreshToken⟩
  else
    let c := refreshCompletion st wsOpen now outcome
    ⟨c.state, RefreshEffect.fetchAuthExchange :: c.effects, c.error⟩

/-- The auth callback route handler (server.js lines 184-224): 400
when the code query parameter is absent; otherwise one fetch against
the auth endpoint; 500 on a body without truthy access_token; on
success assign the token variables (the refresh fallback here is the
empty string, not the previous value), await saveTokens, then call
connectUpstoxWS unconditionally.  A thrown fetch lands in the catch
block (500), leaving the variables untouched. -/
def authCallbackRun (st : TokenState) (code : Option String) (now : Int)
    (outcome : Option TokenResponse) : RefreshRun :=
  match code with
  | none => ⟨st, [], some RefreshError.missingCode⟩
  | some _ =>
    match outcome with
    | none => ⟨st, [RefreshEffect.fetchAuthExchange], some RefreshError.networkFailure⟩
    | some data =>
      if strTruthy data.access_token then
        let newAccess := data.access_token.getD ""
        let newRefresh := jsStrOr data.refresh_token ""
        let newExpires := now + jsIntOr data.expires_in 3600
        ⟨⟨newAccess, newRefresh, newExpires⟩,
         [RefreshEffect.fetchAuthExchange,
          RefreshEffect.save newAccess newRefresh data.expires_in,
          RefreshEffect.connect],
         none⟩
      else
        ⟨st, [RefreshEffect.fetchAuthExchange], some RefreshError.noAccessTokenInResponse⟩

/-- Scanning check that no connect effect precedes the first save
effect: true exactly when every connect in the list has a save
somewhere before it. -/
def saveBeforeConnect : List RefreshEffect → Bool
  | [] => true
  | RefreshEffect.connect :: _ => false
  | RefreshEffect.save _ _ _ :: _ => true
  | RefreshEffect.fetchAuthExchange :: rest => saveBeforeConnect rest

/-- Predicate picking out save effects. -/
def isSaveEffect : RefreshEffect → Bool
  | RefreshEffect.save _ _ _ => true
  | _ => false

/-! ## Refresh trigger concurrency (server.js lines 33-66, 145-181)

refreshAccessToken runs synchronously from its entry to the awaited
fetch, so once a trigger passes the empty-refresh-token check an
exchange with the auth endpoint is in flight until its fetchReturn
event.  The periodic check fires every 45 seconds and calls
refreshAccessToken whenever tokenExpiresAt is truthy and less than 120
seconds away.  inFlight counts the exchanges currently awaiting the
endpoint. -/

structure RefreshSys where
  tokens : TokenState
  inFlight : Nat
deriving DecidableEq

/-- Entry of refreshAccessToken up to its first await: the
empty-refresh-token early return is the only short-circuit; otherwise
the fetch is issued and is now in flight.  No state read here depends
on how many exchanges are already in flight. -/
def refreshBegin (s : RefreshSys) : RefreshSys :=
  if s.tokens.upstoxRefreshToken = "" then s
  else { s with inFlight := s.inFlight + 1 }

/-- Events of the refresh system: one firing of the 45 second periodic
check at clock now, and the return of one in-flight exchange with a
given outcome. -/
inductive RefreshEvent where
  | periodicCheck (now : Int) : RefreshEvent
  | fetchReturn (now : Int) (outcome : Option TokenResponse) : RefreshEvent

/-- One event of the refresh system.  The periodic callback (server.js
lines 53-61) guards on a truthy tokenExpiresAt less than 120 seconds
away and then enters refreshAccessToken; a fetchReturn runs the
continuation of one in-flight exchange (wsOpen does not affect the
token variables, only the connect effect, so it is fixed here). -/
def refreshStep (s : RefreshSys) : RefreshEvent → Option RefreshSys
  | RefreshEvent.periodicCheck now =>
      if s.tokens.tokenExpiresAt ≠ 0 ∧ s.tokens.tokenExpiresAt - now < 120 then
        some (refreshBegin s)
      else some s
  | RefreshEvent.fetchReturn now outcome =>
      match s.inFlight with
      | 0 => none
      | n + 1 =>
          some { tokens := (refreshCompletion s.tokens true now outcome).state,
                 inFlight := n }

/-- Run of the refresh system over an event list. -/
def refreshRun (s : RefreshSys) : List RefreshEvent → Option RefreshSys
  | [] => some s
  | e :: es =>
    match refreshStep s e with
    | some s2 => refreshRun s2 es
    | none => none

/-! ## Token store (token_store.js) -/

/-- One row of the tokens table (the integer primary key is not
observable through saveTokens and loadTokens and is omitted). -/
structure TokensRow where
  access_token : String
  refresh_token : Option String
  expires_at : Int
deriving DecidableEq

/-- The argument record of saveTokens as built by its callers:
access_token always a string, refresh_token possibly absent,
expires_in possibly absent. -/
structure SaveInput where
  access_token : String
  refresh_token : Option String
  expires_in : Option Int

/-- saveTokens (token_store.js lines 21-30): recompute expires_at as
now plus expires_in (JavaScript OR defaulting to 3600), DELETE every
row of the table, INSERT one row storing refresh_token OR null. -/
def saveTokens (dbRows : List TokensRow) (now : Int) (inp : SaveInput) : List TokensRow :=
  let expires_at := now + jsIntOr inp.expires_in 3600
  let refreshStored : Option String :=
    match inp.refresh_token with
    | some r => if r != "" then some r else none
    | none => none
  [{ access_token := inp.access_token, refresh_token := refreshStored, expires_at := expires_at }]

/-- loadTokens (token_store.js lines 32-35): the first row of the
table if any, else null. -/
def loadTokens (dbRows : List TokensRow) : Option TokensRow :=
  dbRows.head?

/-! ## Helper lemmas -/

/-- clearReconnectTimer only touches the timer fields. -/
theorem clearReconnectTimer_sockets (s : ConnState) :
    (clearReconnectTimer s).sockets = s.sockets := by
  cases h : s.reconnectTimer <;> simp [clearReconnectTimer, h]

/-! ## Claims -/

/-- Start state for the refresh concurrency runs: tokens loaded, the
access token expiring at epoch second 100, no exchange in flight. -/
def c1Start : RefreshSys :=
  { tokens := { upstoxAccessToken := "a", upstoxRefreshToken := "r", tokenExpiresAt := 100 },
    inFlight := 0 }

/-- C1 counterexample: two firings of the 45 second periodic check, at
clock 50 and clock 95 (45 seconds apart), both pass the near-expiry
guard and the empty-refresh-token check while the first exchange has
not yet returned, leaving two auth exchanges in flight at once.  The
claim that a refresh already in progress short-circuits a subsequent
trigger is false: refreshAccessToken has no in-progress guard. -/
theorem C1_counterexample :
    (refreshRun c1Start
      [RefreshEvent.periodicCheck 50, RefreshEvent.periodicCheck 95]).map RefreshSys.inFlight =
    some 2 := by decide

/-- C1 (amended): a triggered refresh short-circuits exactly when the
refresh token is empty; otherwise every trigger that passes the
near-expiry guard starts one more auth exchange regardless of how many
exchanges are already in flight, so concurrent exchanges are
possible. -/
theorem C1_trigger_starts_exchange_regardless_of_inflight (s : RefreshSys) (now : Int) :
    (s.tokens.upstoxRefreshToken = "" →
       refreshStep s (RefreshEvent.periodicCheck now) = some s)
  ∧ (s.tokens.tokenExpiresAt ≠ 0 → s.tokens.tokenExpiresAt - now < 120 →
     s.tokens.upstoxRefreshToken ≠ "" →
       refreshStep s (RefreshEvent.periodicCheck now) = some { s with inFlight := s.inFlight + 1 }) := by
  constructor
  · intro h
    by_cases hg : s.tokens.tokenExpiresAt ≠ 0 ∧ s.tokens.tokenExpiresAt - now < 120 <;>
      simp [refreshStep, refreshBegin, hg, h]
  · intro h1 h2 h3
    simp [refreshStep, refreshBegin, h1, h2, h3]

/-- C1 witness: the amended behavior evaluated at the concrete start
state, with one exchange already in flight. -/
theorem C1_trigger_witness :
    refreshStep { c1Start with inFlight := 1 } (RefreshEvent.periodicCheck 95) =
      some { c1Start with inFlight := 2 } :=
  (C1_trigger_starts_exchange_regardless_of_inflight { c1Start with inFlight := 1 } 95).2
    (by decide) (by decide) (by decide)

/-- C2 counterexample: a connect call while the previous socket is
still in readyState CONNECTING is not a no-op; after two immediate
connect calls two socket instances are live (both CONNECTING), because
the guard of connectUpstoxWS only checks for readyState OPEN. -/
theorem C2_counterexample :
    (connRun (connInit "tok") [ConnEvent.connect, ConnEvent.connect]).map liveCount = some 2
  ∧ connectUpstoxWS (connectUpstoxWS (connInit "tok")) ≠ connectUpstoxWS (connInit "tok") := by
  constructor
  · decide
  · decide

/-- C2 (amended): connectUpstoxWS is a no-op when the current upstream
socket has readyState OPEN (so two calls in immediate succession while
already Open leave exactly the one live connection), and a no-op when
no access token is available; but in any other situation, including
readyState CONNECTING, it appends a fresh socket in readyState
CONNECTING, so it is not idempotent while a connection attempt is
underway. -/
theorem C2_connect_noop_only_when_open (s : ConnState) :
    (s.upstoxAccessToken = "" → connectUpstoxWS s = s)
  ∧ (currentReady s = some WSReady.OPEN →
       connectUpstoxWS s = s ∧ connRun s [ConnEvent.connect, ConnEvent.connect] = some s)
  ∧ (s.upstoxAccessToken ≠ "" → currentReady s ≠ some WSReady.OPEN →
       (connectUpstoxWS s).sockets = s.sockets ++ [WSReady.CONNECTING]) := by
  refine ⟨?_, ?_, ?_⟩
  · intro h
    simp [connectUpstoxWS, h]
  · intro h
    have hno : connectUpstoxWS s = s := by
      by_cases htok : s.upstoxAccessToken = "" <;> simp [connectUpstoxWS, htok, h]
    exact ⟨hno, by simp [connRun, connStep, hno]⟩
  · intro htok hopen
    simp [connectUpstoxWS, htok, hopen, clearReconnectTimer_sockets]

/-- C2 witness: the amended behavior evaluated at a state with one
OPEN socket and at a state with one CONNECTING socket. -/
theorem C2_connect_noop_witness :
    connectUpstoxWS { upstoxAccessToken := "t", sockets := [WSReady.OPEN], upstoxWS := some 0,
                      pendingTimers := [], reconnectTimer := none, nextTimer := 0 } =
      { upstoxAccessToken := "t", sockets := [WSReady.OPEN], upstoxWS := some 0,
        pendingTimers := [], reconnectTimer := none, nextTimer := 0 }
  ∧ (connectUpstoxWS { upstoxAccessToken := "t", sockets := [WSReady.CONNECTING], upstoxWS := some 0,
                       pendingTimers := [], reconnectTimer := none, nextTimer := 0 }).sockets =
      [WSReady.CONNECTING, WSReady.CONNECTING] :=
  ⟨((C2_connect_noop_only_when_open _).2.1 (by decide)).1,
   (C2_connect_noop_only_when_open _).2.2 (by decide) (by decide)⟩

/-- C3 counterexample: a reachable run in which a second close event
arrives before the reconnect timer of the first fires (two sockets
exist because connectUpstoxWS is not guarded against CONNECTING); the
second close handler overwrites the reconnectTimer variable without
clearing the first timer, so two reconnect timers are pending at
once. -/
theorem C3_counterexample :
    (connRun (connInit "tok")
      [ConnEvent.connect, ConnEvent.connect, ConnEvent.sockClose 0, ConnEvent.sockClose 1]).map
      (fun s => s.pendingTimers.length) = some 2 := by decide

/-- C3 (amended): every close event schedules exactly one reconnect
attempt 5000 ms later, appended to whatever timers are already
pending; the close handler clears nothing (clearing happens only
inside connectUpstoxWS), so a second close event before the first
timer fires leaves two pending reconnect timers. -/
theorem C3_close_appends_timer (s : ConnState) (i j : Nat) :
    (onUpstoxClose s i).pendingTimers = s.pendingTimers ++ [(s.nextTimer, 5000)]
  ∧ (onUpstoxClose (onUpstoxClose s i) j).pendingTimers.length = s.pendingTimers.length + 2 := by
  constructor
  · simp [onUpstoxClose]
  · simp [onUpstoxClose]

/-- C4: in refreshAccessToken and in the auth callback, the awaited
saveTokens call precedes the connectUpstoxWS call in program order on
every path, so a credential replacement is persisted before the
connection manager is signalled to use it. -/
theorem C4_save_persisted_before_connect (st : TokenState) (wsOpen : Bool) (now : Int)
    (outcome : Option TokenResponse) (code : Option String) :
    saveBeforeConnect (refreshAccessToken st wsOpen now outcome).effects = true
  ∧ saveBeforeConnect (authCallbackRun st code now outcome).effects = true := by
  constructor
  · by_cases h : st.upstoxRefreshToken = ""
    · simp [refreshAccessToken, h, saveBeforeConnect]
    · cases outcome with
      | none => simp [refreshAccessToken, refreshCompletion, h, saveBeforeConnect]
      | some data =>
          by_cases ht : strTruthy data.access_token <;>
            simp [refreshAccessToken, refreshCompletion, h, ht, saveBeforeConnect]
  · cases code with
    | none => simp [authCallbackRun, saveBeforeConnect]
    | some c =>
      cases outcome with
      | none => simp [authCallbackRun, saveBeforeConnect]
      | some data =>
          by_cases ht : strTruthy data.access_token <;>
            simp [authCallbackRun, ht, saveBeforeConnect]

/-- C5: a refreshAccessToken run whose fetch throws or whose response
carries no truthy access token leaves the token variables untouched,
performs no save (so the persisted credential is untouched), performs
exactly one fetch (no inline retry), and reports the error describing
the cause. -/
theorem C5_failed_refresh_changes_nothing (st : TokenState) (wsOpen : Bool) (now : Int)
    (outcome : Option TokenResponse)
    (htok : st.upstoxRefreshToken ≠ "")
    (hfail : outcome = none ∨ ∃ d, outcome = some d ∧ strTruthy d.access_token = false) :
    (refreshAccessToken st wsOpen now outcome).state = st
  ∧ (refreshAccessToken st wsOpen now outcome).effects = [RefreshEffect.fetchAuthExchange]
  ∧ (∀ e ∈ (refreshAccessToken st wsOpen now outcome).effects, isSaveEffect e = false)
  ∧ (outcome = none →
       (refreshAccessToken st wsOpen now outcome).error = some RefreshError.networkFailure)
  ∧ (∀ d, outcome = some d →
       (refreshAccessToken st wsOpen now outcome).error = some RefreshError.noAccessTokenInResponse) := by
  rcases hfail with h | ⟨d, hd, hfalse⟩
  · subst h
    simp [refreshAccessToken, refreshCompletion, htok, isSaveEffect]
  · subst hd
    simp [refreshAccessToken, refreshCompletion, htok, hfalse, isSaveEffect]

/-- C5 witness: the failure behavior evaluated at a concrete state and
a thrown fetch. -/
theorem C5_failed_refresh_witness :
    (refreshAccessToken { upstoxAccessToken := "a", upstoxRefreshToken := "r", tokenExpiresAt := 100 }
        false 0 none).state =
      { upstoxAccessToken := "a", upstoxRefreshToken := "r", tokenExpiresAt := 100 }
  ∧ (refreshAccessToken { upstoxAccessToken := "a", upstoxRefreshToken := "r", tokenExpiresAt := 100 }
        false 0 none).effects = [RefreshEffect.fetchAuthExchange]
  ∧ (refreshAccessToken { upstoxAccessToken := "a", upstoxRefreshToken := "r", tokenExpiresAt := 100 }
        false 0 none).error = some RefreshError.networkFailure := by
  have h := C5_failed_refresh_changes_nothing
    { upstoxAccessToken := "a", upstoxRefreshToken := "r", tokenExpiresAt := 100 }
    false 0 none (by decide) (Or.inl rfl)
  exact ⟨h.1, h.2.1, h.2.2.2.1 rfl⟩

/-- The subscribe request with the single symbol X. -/
def subscribeX : Json :=
  Json.obj [("action", Json.str "subscribe"), ("symbols", Json.arr [Json.str "X"])]

/-- C6: handling the subscribe request for X while the upstream socket
is OPEN emits exactly one subscribe command on the upstream socket
followed by exactly one success acknowledgement to the sender; handling
it while the upstream socket is not OPEN emits exactly one failure
acknowledgement to the sender and nothing else, in particular no
upstream command and no queued message of any kind. -/
theorem C6_subscribe_roundtrip (ltpResult : Except Unit Json) :
    handleFrontendMessage true ltpResult (some subscribeX) =
      [OutMsg.toUpstox (Json.obj [("action", Json.str "subscribe"),
                                  ("symbols", Json.arr [Json.str "X"])]),
       OutMsg.toSender okAck]
  ∧ handleFrontendMessage false ltpResult (some subscribeX) = [OutMsg.toSender failAck] :=
  ⟨rfl, rfl⟩

/-- C7 counterexample: a non-JSON upstream payload is relayed to the
one open client wrapped with the source tag upstox, which differs from
the tag upstream stated by the claim. -/
theorem C7_counterexample :
    relayUpstoxMessage none "hello" [WSReady.OPEN] =
      [some (Json.obj [("source", Json.str "upstox"), ("data", Json.str "hello")])]
  ∧ Json.obj [("source", Json.str "upstox"), ("data", Json.str "hello")] ≠
      Json.obj [("source", Json.str "upstream"), ("data", Json.str "hello")] := by
  constructor
  · rfl
  · simp

/-- C7 (amended): every inbound upstream message is relayed to every
client whose channel is OPEN and is never dropped, wrapped as an
object with source upstox and data the parsed payload when it parses,
the raw string otherwise; clients whose channel is not OPEN are
skipped; a parse failure produces no error message anywhere. -/
theorem C7_relay_to_all_open (parseResult : Option Json) (raw : String)
    (clients : List WSReady) :
    (relayUpstoxMessage parseResult raw clients).length = clients.length
  ∧ (∀ i : Nat, clients[i]? = some WSReady.OPEN →
      (relayUpstoxMessage parseResult raw clients)[i]? =
        some (some (Json.obj [("source", Json.str "upstox"),
          ("data", match parseResult with
                   | some parsed => parsed
                   | none => Json.str raw)])))
  ∧ (∀ (i : Nat) (st : WSReady), clients[i]? = some st → st ≠ WSReady.OPEN →
      (relayUpstoxMessage parseResult raw clients)[i]? = some none) := by
  refine ⟨by simp [relayUpstoxMessage], ?_, ?_⟩
  · intro i hi
    simp [relayUpstoxMessage, List.getElem?_map, hi, upstoxWrap]
  · intro i st hi hne
    simp [relayUpstoxMessage, List.getElem?_map, hi, hne]

/-- C7 witness: the relay behavior evaluated on one OPEN and one
CLOSED client with a payload that does not parse. -/
theorem C7_relay_witness :
    (relayUpstoxMessage none "hi" [WSReady.OPEN, WSReady.CLOSED]).length = 2
  ∧ (relayUpstoxMessage none "hi" [WSReady.OPEN, WSReady.CLOSED])[0]? =
      some (some (Json.obj [("source", Json.str "upstox"), ("data", Json.str "hi")]))
  ∧ (relayUpstoxMessage none "hi" [WSReady.OPEN, WSReady.CLOSED])[1]? = some none :=
  ⟨(C7_relay_to_all_open none "hi" [WSReady.OPEN, WSReady.CLOSED]).1,
   (C7_relay_to_all_open none "hi" [WSReady.OPEN, WSReady.CLOSED]).2.1 0 rfl,
   (C7_relay_to_all_open none "hi" [WSReady.OPEN, WSReady.CLOSED]).2.2 1 WSReady.CLOSED rfl
     (by decide)⟩

/-- Predicate picking out replies to the originating client. -/
def isToSender : OutMsg → Bool
  | OutMsg.toSender _ => true
  | _ => false

/-- Predicate picking out sends on the upstream socket. -/
def isToUpstox : OutMsg → Bool
  | OutMsg.toUpstox _ => true
  | _ => false

/-- Shape of the sends of forwardSubscriptionToUpstox: nothing, or a
single upstream command. -/
theorem forward_snd_shape (b : Bool) (j : Json) :
    (forwardSubscriptionToUpstox b j).snd = [] ∨
    ∃ x, (forwardSubscriptionToUpstox b j).snd = [OutMsg.toUpstox x] := by
  cases j with
  | arr xs =>
      by_cases h : xs.length = 0
      · simp [forwardSubscriptionToUpstox, h]
      · cases b with
        | false => simp [forwardSubscriptionToUpstox, h]
        | true =>
            right
            exact ⟨Json.obj [("action", Json.str "subscribe"), ("symbols", Json.arr xs)],
                   by simp [forwardSubscriptionToUpstox, h]⟩
  | null => simp [forwardSubscriptionToUpstox]
  | bool c => simp [forwardSubscriptionToUpstox]
  | num n => simp [forwardSubscriptionToUpstox]
  | str s => simp [forwardSubscriptionToUpstox]
  | obj fs => simp [forwardSubscriptionToUpstox]

/-- Shape of a successful run of the try block: exactly one reply to
the sender and every other message an upstream send. -/
theorem handleParsed_shape (b : Bool) (lr : Except Unit Json) (p : Json) :
    (∃ msgs, handleParsed b lr p = Except.ok msgs ∧
       (msgs.filter isToSender).length = 1 ∧
       (∀ e ∈ msgs, isToSender e = true ∨ isToUpstox e = true))
  ∨ handleParsed b lr p = Except.error () := by
  cases p with
  | null => right; rfl
  | bool c => left; exact ⟨_, rfl, rfl, by intro e he; simp at he; simp [he, isToSender]⟩
  | num n => left; exact ⟨_, rfl, rfl, by intro e he; simp at he; simp [he, isToSender]⟩
  | str s => left; exact ⟨_, rfl, rfl, by intro e he; simp at he; simp [he, isToSender]⟩
  | arr xs => left; exact ⟨_, rfl, rfl, by intro e he; simp at he; simp [he, isToSender]⟩
  | obj fs =>
      left
      rw [handleParsed]
      simp only [jsGet]
      by_cases h1 : jsStrEq (lookupField fs "action") "subscribe" ∧
                    isArrayOpt (lookupField fs "symbols")
      · rw [if_pos (by simp [h1.1, h1.2])]
        rcases forward_snd_shape b ((lookupField fs "symbols").getD Json.null) with hs | ⟨x, hs⟩
        · by_cases hf : (forwardSubscriptionToUpstox b ((lookupField fs "symbols").getD Json.null)).fst
          · refine ⟨_, by rw [if_pos hf], ?_, ?_⟩
            · simp [hs, isToSender]
            · intro e he
              rw [hs] at he
              simp at he
              simp [he, isToSender]
          · refine ⟨_, by rw [if_neg hf], ?_, ?_⟩
            · simp [hs, isToSender]
            · intro e he
              rw [hs] at he
              simp at he
              simp [he, isToSender]
        · by_cases hf : (forwardSubscriptionToUpstox b ((lookupField fs "symbols").getD Json.null)).fst
          · refine ⟨_, by rw [if_pos hf], ?_, ?_⟩
            · simp [hs, isToSender, isToUpstox]
            · intro e he
              rw [hs] at he
              simp at he
              rcases he with he | he <;> simp [he, isToSender, isToUpstox]
          · refine ⟨_, by rw [if_neg hf], ?_, ?_⟩
            · simp [hs, isToSender, isToUpstox]
            · intro e he
              rw [hs] at he
              simp at he
              rcases he with he | he <;> simp [he, isToSender, isToUpstox]
      · rw [if_neg (by intro hb; rw [Bool.and_eq_true] at hb; exact h1 ⟨hb.1, hb.2⟩)]
        by_cases h2 : jsStrEq (lookupField fs "action") "ltp" ∧
                      truthyOpt (lookupField fs "symbol")
        · rw [if_pos (by simp [h2.1, h2.2])]
          cases lr with
          | ok j => exact ⟨_, rfl, rfl, by intro e he; simp at he; simp [he, isToSender]⟩
          | error u => exact ⟨_, rfl, rfl, by intro e he; simp at he; simp [he, isToSender]⟩
        · rw [if_neg (by intro hb; rw [Bool.and_eq_true] at hb; exact h2 ⟨hb.1, hb.2⟩)]
          exact ⟨_, rfl, rfl, by intro e he; simp at he; simp [he, isToSender]⟩

/-- C8: every inbound frontend message produces exactly one reply to
the sending client; every emitted message is either that reply or an
upstream send, so the handler never closes the client channel and
never sends anything to another subscriber; and a message that fails
to parse is answered with the structured invalid-format reply. -/
theorem C8_every_message_one_reply (upstreamOpen : Bool) (ltpResult : Except Unit Json)
    (parseResult : Option Json) :
    ((handleFrontendMessage upstreamOpen ltpResult parseResult).filter isToSender).length = 1
  ∧ (∀ e ∈ handleFrontendMessage upstreamOpen ltpResult parseResult,
       isToSender e = true ∨ isToUpstox e = true)
  ∧ (parseResult = none →
       handleFrontendMessage upstreamOpen ltpResult parseResult = [OutMsg.toSender invalidMsg]) := by
  cases parseResult with
  | none =>
      refine ⟨rfl, ?_, fun _ => rfl⟩
      intro e he
      simp [handleFrontendMessage] at he
      simp [he, isToSender]
  | some parsed =>
      rcases handleParsed_shape upstreamOpen ltpResult parsed with ⟨msgs, hok, hcount, hall⟩ | herr
      · refine ⟨?_, ?_, by intro h; exact absurd h (by simp)⟩
        · simp [handleFrontendMessage, hok, hcount]
        · intro e he
          simp only [handleFrontendMessage, hok] at he
          exact hall e he
      · refine ⟨?_, ?_, by intro h; exact absurd h (by simp)⟩
        · simp [handleFrontendMessage, herr, isToSender]
        · intro e he
          simp [handleFrontendMessage, herr] at he
          simp [he, isToSender]

/-- C8 witness: the reply discipline evaluated at a message that fails
to parse. -/
theorem C8_one_reply_witness :
    ((handleFrontendMessage true (Except.error ()) none).filter isToSender).length = 1
  ∧ handleFrontendMessage true (Except.error ()) none = [OutMsg.toSender invalidMsg] :=
  ⟨(C8_every_message_one_reply true (Except.error ()) none).1,
   (C8_every_message_one_reply true (Except.error ()) none).2.2 rfl⟩

/-- The subscribe request whose symbols field is the string X rather
than an array. -/
def subscribeBad : Json :=
  Json.obj [("action", Json.str "subscribe"), ("symbols", Json.str "X")]

/-- C9 counterexample: a subscribe message whose symbols field is not
an array does not take the subscribe branch at all (the branch guard
requires Array.isArray), so even while the upstream socket is OPEN the
sender gets the echo reply, not the failure acknowledgement the claim
states. -/
theorem C9_counterexample :
    handleFrontendMessage true (Except.error ()) (some subscribeBad) =
      [OutMsg.toSender (Json.obj [("echo", subscribeBad)])]
  ∧ Json.obj [("echo", subscribeBad)] ≠ failAck := by
  constructor
  · rfl
  · simp [failAck]

/-- C9 (amended): a subscribe message with an empty symbols array gets
the failure acknowledgement about the upstream socket, with no
upstream command, even when the upstream socket is OPEN, because
forwardSubscriptionToUpstox returns false for an empty array in every
connection state; forwardSubscriptionToUpstox likewise returns false,
sending nothing, for every non-array argument in every connection
state; but a subscribe message whose symbols field is not an array is
echoed back by the handler rather than answered with the failure
acknowledgement. -/
theorem C9_empty_symbols_rejected (b : Bool) (lr : Except Unit Json) :
    handleFrontendMessage b lr
        (some (Json.obj [("action", Json.str "subscribe"), ("symbols", Json.arr [])])) =
      [OutMsg.toSender failAck]
  ∧ forwardSubscriptionToUpstox b (Json.arr []) = (false, [])
  ∧ (∀ j, isArray j = false → forwardSubscriptionToUpstox b j = (false, []))
  ∧ handleFrontendMessage b lr (some subscribeBad) =
      [OutMsg.toSender (Json.obj [("echo", subscribeBad)])] := by
  refine ⟨rfl, rfl, ?_, rfl⟩
  intro j hj
  cases j <;> simp_all [forwardSubscriptionToUpstox, isArray]

/-- C9 witness: the amended behavior evaluated while the upstream
socket is OPEN, at the empty array and at a string argument. -/
theorem C9_empty_symbols_witness :
    handleFrontendMessage true (Except.error ())
        (some (Json.obj [("action", Json.str "subscribe"), ("symbols", Json.arr [])])) =
      [OutMsg.toSender failAck]
  ∧ forwardSubscriptionToUpstox true (Json.str "X") = (false, []) :=
  ⟨(C9_empty_symbols_rejected true (Except.error ())).1,
   (C9_empty_symbols_rejected true (Except.error ())).2.2.1 (Json.str "X") rfl⟩

/-- C10: saveTokens deletes every existing row and inserts exactly
one, so the table afterwards holds exactly the saved credential, with
expires_at recomputed as now plus expires_in (3600 when absent or
zero) and refresh_token stored as null when absent (or empty); a
loadTokens immediately after returns exactly that row. -/
theorem C10_save_load_roundtrip (dbRows : List TokensRow) (now : Int) (inp : SaveInput) :
    (saveTokens dbRows now inp).length = 1
  ∧ loadTokens (saveTokens dbRows now inp) =
      some { access_token := inp.access_token,
             refresh_token := (match inp.refresh_token with
                               | some r => if r != "" then some r else none
                               | none => none),
             expires_at := now + jsIntOr inp.expires_in 3600 }
  ∧ loadTokens (saveTokens dbRows now { access_token := inp.access_token,
                                        refresh_token := none, expires_in := none }) =
      some { access_token := inp.access_token, refresh_token := none,
             expires_at := now + 3600 } := by
  refine ⟨rfl, rfl, ?_⟩
  simp [saveTokens, loadTokens, jsIntOr]

end StockHub
